import Mathlib

/-!
Verification of the pywhois parser (`src/pywhois/parser.py`).

Strings are embedded as `List Char`.  Python's `re.findall` and
`time.strptime` (the two library routines the parser leans on) are modelled
by a small backtracking regular-expression engine below, faithful to
CPython's semantics on the construct subset these patterns use:
literals, `.`, escapes `\s \w \d` (byte-string classes, no locale/unicode),
character classes with ranges, greedy `* + ? {m,n}`, capturing and
`(?:...)` groups, and alternation with left-to-right priority.
-/

namespace Pywhois

/-- Convert a Lean string literal to the `List Char` embedding. -/
def str (s : String) : List Char := s.data

/-- Python whitespace for `str.strip()` and the regex class `\s`
(byte strings): space, tab, newline, carriage return, vertical tab,
form feed. -/
def pyIsSpace (c : Char) : Bool :=
  c == ' ' || c == '\t' || c == '\n' || c == '\r' || c == '\x0b' || c == '\x0c'

/-- Python `str.strip()`: drop leading and trailing whitespace. -/
def pyStrip (s : List Char) : List Char :=
  ((s.dropWhile pyIsSpace).reverse.dropWhile pyIsSpace).reverse

/-- Python `needle in hay` substring test. -/
def isSub (needle hay : List Char) : Bool :=
  match hay with
  | [] => needle.isEmpty
  | _ :: t => needle.isPrefixOf hay || isSub needle t

/-- Python negative slice `s[-n:]`: the last `n` characters
(the whole string when it is shorter than `n`). -/
def slice (n : Nat) (s : List Char) : List Char :=
  s.drop (s.length - n)

/-- Item of a regex character class. -/
inductive CItem where
  | lit (c : Char)
  | range (lo hi : Char)
  | wcls
  | dcls
  | scls
deriving DecidableEq, Repr

/-- Single-character regex atoms. -/
inductive RAtom where
  | lit (c : Char)
  | litCI (c : Char)
  | dot
  | wcls
  | dcls
  | scls
  | cls (neg : Bool) (items : List CItem)
deriving DecidableEq, Repr

/-- Regular expressions (greedy backtracking semantics, priority order). -/
inductive Re where
  | eps
  | atom (a : RAtom)
  | seq (a b : Re)
  | alt (a b : Re)
  | star (a : Re)
  | group (idx : Nat) (a : Re)
deriving DecidableEq, Repr

/-- Python `\w` for byte strings: `[a-zA-Z0-9_]`. -/
def wordChar (c : Char) : Bool := c.isAlpha || c.isDigit || c == '_'

def citemMatch (c : Char) : CItem → Bool
  | .lit d => c == d
  | .range lo hi => decide (lo ≤ c) && decide (c ≤ hi)
  | .wcls => wordChar c
  | .dcls => c.isDigit
  | .scls => pyIsSpace c

def atomMatch (a : RAtom) (c : Char) : Bool :=
  match a with
  | .lit d => c == d
  | .litCI d => c.toLower == d.toLower
  | .dot => c != '\n'
  | .wcls => wordChar c
  | .dcls => c.isDigit
  | .scls => pyIsSpace c
  | .cls neg items => (items.any (citemMatch c)) != neg

/-- Captured groups: newest binding first. -/
abbrev Groups := List (Nat × List Char)

/-- Association-list lookup (first hit wins). -/
def alookup {α : Type} [DecidableEq α] {β : Type} : List (α × β) → α → Option β
  | [], _ => none
  | (k, v) :: t, f => if k = f then some v else alookup t f

/-- All ways a regex can match a prefix of `s`, as `(remainder, groups)`
pairs in backtracking priority order (greedy first, alternation
left-to-right).  The head of the list is the match Python's engine
commits to.  `fuel` bounds recursion depth; it is always called with
enough fuel to be exhaustive. -/
def mrun : Nat → Re → List Char → Groups → List (List Char × Groups)
  | 0, _, _, _ => []
  | _ + 1, .eps, s, g => [(s, g)]
  | _ + 1, .atom _, [], _ => []
  | _ + 1, .atom a, c :: s, g => if atomMatch a c then [(s, g)] else []
  | f + 1, .seq a b, s, g => (mrun f a s g).flatMap (fun r => mrun f b r.1 r.2)
  | f + 1, .alt a b, s, g => mrun f a s g ++ mrun f b s g
  | f + 1, .star a, s, g =>
      ((mrun f a s g).flatMap (fun r =>
        if r.1.length < s.length then mrun f (.star a) r.1 r.2 else [r])) ++ [(s, g)]
  | f + 1, .group i a, s, g =>
      (mrun f a s g).map (fun r => (r.1, (i, s.take (s.length - r.1.length)) :: r.2))

def reSize : Re → Nat
  | .eps => 1
  | .atom _ => 1
  | .seq a b => reSize a + reSize b + 1
  | .alt a b => reSize a + reSize b + 1
  | .star a => reSize a + 1
  | .group _ a => reSize a + 1

/-- Enough fuel for `mrun` to be exhaustive: every recursive call
decreases `(reSize + 1) * (length + 1)`. -/
def fuelFor (re : Re) (s : List Char) : Nat :=
  (reSize re + 1) * (s.length + 1) + 1

/-- Python `re.match` anchored at the start of `s`: the first match in
priority order. -/
def mfirst (re : Re) (s : List Char) : Option (List Char × Groups) :=
  (mrun (fuelFor re s) re s []).head?

/-- What `re.findall` records for one match: the single capturing group
if the pattern has exactly one, the whole match otherwise. -/
def extractOne (numGroups : Nat) (s rest : List Char) (g : Groups) : List Char :=
  if numGroups == 1 then (alookup g 1).getD []
  else s.take (s.length - rest.length)

/-- Python `re.findall` scan: left-to-right, non-overlapping; an empty
match advances the scan position by one. -/
def findallAux (re : Re) (ng : Nat) : Nat → List Char → List (List Char)
  | 0, _ => []
  | f + 1, s =>
    match mfirst re s with
    | some (rest, g) =>
        let m := extractOne ng s rest g
        if rest.length < s.length then m :: findallAux re ng f rest
        else m :: (match s with | [] => [] | _ :: t => findallAux re ng f t)
    | none => match s with | [] => [] | _ :: t => findallAux re ng f t

def reOpt (r : Re) : Re := .alt r .eps

def rePlus (r : Re) : Re := .seq r (.star r)

/-- `n` further optional greedy repetitions. -/
def reRepOpt (r : Re) : Nat → Re
  | 0 => .eps
  | n + 1 => reOpt (.seq r (reRepOpt r n))

def reSeqN (r : Re) : Nat → Re
  | 0 => .eps
  | n + 1 => .seq r (reSeqN r n)

/-- Greedy counted repetition `r{m,n}`. -/
def reRepeat (r : Re) (m n : Nat) : Re :=
  .seq (reSeqN r m) (reRepOpt r (n - m))

/-- Parse the inside of a character class up to the closing `]`. -/
def parseCls : Nat → List Char → Option (List CItem × List Char)
  | 0, _ => none
  | f + 1, cs =>
    match cs with
    | ']' :: rest => some ([], rest)
    | '\\' :: c :: rest =>
      let item : CItem :=
        if c == 'w' then .wcls else if c == 'd' then .dcls
        else if c == 's' then .scls else .lit c
      (parseCls f rest).map (fun r => (item :: r.1, r.2))
    | c :: '-' :: d :: rest =>
      if d == ']' then (parseCls f ('-' :: ']' :: rest)).map (fun r => (CItem.lit c :: r.1, r.2))
      else (parseCls f rest).map (fun r => (CItem.range c d :: r.1, r.2))
    | c :: rest => (parseCls f rest).map (fun r => (CItem.lit c :: r.1, r.2))
    | [] => none

/-- Parse a decimal number, returning it with the rest of the input. -/
def parseNum : List Char → Nat → Nat × List Char
  | [], acc => (acc, [])
  | c :: rest, acc =>
    if c.isDigit then parseNum rest (acc * 10 + (c.toNat - 48)) else (acc, c :: rest)

/-- Apply a postfix quantifier, if one follows. -/
def applyQuant (r : Re) (cs : List Char) : Option (Re × List Char) :=
  match cs with
  | '*' :: rest => some (.star r, rest)
  | '+' :: rest => some (rePlus r, rest)
  | '?' :: rest => some (reOpt r, rest)
  | '{' :: rest =>
    let (m, rest1) := parseNum rest 0
    match rest1 with
    | ',' :: rest2 =>
      let (n, rest3) := parseNum rest2 0
      match rest3 with
      | '}' :: rest4 => some (reRepeat r m n, rest4)
      | _ => none
    | _ => none
  | _ => some (r, cs)

/-- Recursive-descent parser for the pattern syntax used by the program:
returns the regex, the unconsumed input (after the `)` that closed a
group) and the next capturing-group index.  `acc` is the sequence parsed
so far, `alts` the alternatives already closed by `|`. -/
def parsePat : Nat → List Char → Nat → Re → Option Re → Option (Re × List Char × Nat)
  | 0, _, _, _, _ => none
  | _ + 1, [], gi, acc, alts =>
      some (match alts with | none => acc | some a => .alt a acc, [], gi)
  | _ + 1, ')' :: rest, gi, acc, alts =>
      some (match alts with | none => acc | some a => .alt a acc, rest, gi)
  | f + 1, '|' :: rest, gi, acc, alts =>
      parsePat f rest gi .eps (some (match alts with | none => acc | some a => .alt a acc))
  | f + 1, '(' :: '?' :: ':' :: rest, gi, acc, alts =>
      match parsePat f rest gi .eps none with
      | none => none
      | some (sub, rest1, gi1) =>
        match applyQuant sub rest1 with
        | none => none
        | some (sub1, rest2) => parsePat f rest2 gi1 (.seq acc sub1) alts
  | f + 1, '(' :: rest, gi, acc, alts =>
      match parsePat f rest (gi + 1) .eps none with
      | none => none
      | some (sub, rest1, gi1) =>
        match applyQuant (.group gi sub) rest1 with
        | none => none
        | some (sub1, rest2) => parsePat f rest2 gi1 (.seq acc sub1) alts
  | f + 1, '[' :: rest, gi, acc, alts =>
      let (neg, rest0) := match rest with
        | '^' :: r0 => (true, r0)
        | _ => (false, rest)
      match parseCls (rest0.length + 1) rest0 with
      | none => none
      | some (items, rest1) =>
        match applyQuant (.atom (.cls neg items)) rest1 with
        | none => none
        | some (sub1, rest2) => parsePat f rest2 gi (.seq acc sub1) alts
  | f + 1, '\\' :: c :: rest, gi, acc, alts =>
      let a : RAtom :=
        if c == 'w' then .wcls else if c == 'd' then .dcls
        else if c == 's' then .scls else .lit c
      match applyQuant (.atom a) rest with
      | none => none
      | some (sub1, rest2) => parsePat f rest2 gi (.seq acc sub1) alts
  | f + 1, '.' :: rest, gi, acc, alts =>
      match applyQuant (.atom .dot) rest with
      | none => none
      | some (sub1, rest2) => parsePat f rest2 gi (.seq acc sub1) alts
  | f + 1, c :: rest, gi, acc, alts =>
      match applyQuant (.atom (.lit c)) rest with
      | none => none
      | some (sub1, rest2) => parsePat f rest2 gi (.seq acc sub1) alts

/-- Compile a pattern string: the regex plus its number of capturing
groups. -/
def compilePat (p : List Char) : Option (Re × Nat) :=
  match parsePat (p.length + 2) p 1 .eps none with
  | some (re, [], gi) => some (re, gi - 1)
  | _ => none

/-- Python `re.findall(pattern, text)`. -/
def findall (pat text : List Char) : List (List Char) :=
  match compilePat pat with
  | some (re, ng) => findallAux re ng (text.length + 2) text
  | none => []

/-- Turn string-literal pattern tables into the `List Char` embedding. -/
def rx (l : List (String × String)) : List (List Char × List Char) :=
  l.map (fun p => (p.1.data, p.2.data))

/-- Field patterns of `WhoisEntry` in `parser.py`. -/
def base_regex : List (List Char × List Char) :=
  rx [
  ("domain_name", "Domain Name:\\s?(.+)"),
  ("registrar", "Registrar:\\s?(.+)"),
  ("whois_server", "Whois Server:\\s?(.+)"),
  ("referral_url", "Referral URL:\\s?(.+)"),
  ("updated_date", "Updated Date:\\s?(.+)"),
  ("creation_date", "Creation Date:\\s?(.+)"),
  ("expiration_date", "Expiration Date:\\s?(.+)"),
  ("name_servers", "Name Server:\\s?(.+)"),
  ("status", "Status:\\s?(.+)"),
  ("emails", "[\\w.-]+@[\\w.-]+\\.[\\w]\x7b2,4\x7d")]

/-- Field patterns of `WhoisOrg` in `parser.py`. -/
def org_regex : List (List Char × List Char) :=
  rx [
  ("domain_name", "Domain Name:\\s*(.+)"),
  ("creation_date", "Created On:\\s*(.+)"),
  ("expiration_date", "Expiration Date:\\s*(.+)"),
  ("updated_date", "Last Updated On:\\s*(.+)"),
  ("domain_id", "Domain ID:\\s*(.+)"),
  ("registrar", "Sponsoring Registrar:\\s*(.+)"),
  ("status", "Status:\\s*(.+)"),
  ("registrant_id", "Registrant ID:\\s*(.+)"),
  ("registrant_organization", "Registrant Organization:\\s*(.+)"),
  ("registrant_name", "Registrant Name:\\s*(.+)"),
  ("registrant_address1", "Registrant Street1:\\s*(.+)"),
  ("registrant_address2", "Registrant Street2:\\s*(.+)"),
  ("registrant_city", "Registrant City:\\s*(.+)"),
  ("registrant_state_province", "Registrant State/Province:\\s*(.+)"),
  ("registrant_postal_code", "Registrant Postal Code:\\s*(.+)"),
  ("registrant_country", "Registrant Country:\\s*(.+)"),
  ("registrant_phone_number", "Registrant Phone:\\s*(.+)"),
  ("registrant_email", "Registrant Email:\\s*(.+)"),
  ("admin_id", "Admin ID:\\s*(.+)"),
  ("admin_name", "Admin Name:\\s*(.+)"),
  ("admin_organization", "Admin Organization:\\s*(.+)"),
  ("admin_address1", "Admin Street1:\\s*(.+)"),
  ("admin_address2", "Admin Street2:\\s*(.+)"),
  ("admin_city", "Admin City:\\s*(.+)"),
  ("admin_state_province", "Admin State/Province:\\s*(.+)"),
  ("admin_postal_code", "Admin Postal Code:\\s*(.+)"),
  ("admin_country", "Admin Country:\\s*(.+)"),
  ("admin_phone_number", "Admin Phone:\\s*(.+)"),
  ("admin_email", "Admin Email:\\s*(.+)"),
  ("tech_id", "Tech ID:\\s*(.+)"),
  ("tech_name", "Tech Name:\\s*(.+)"),
  ("tech_organization", "Tech Organization:\\s*(.+)"),
  ("tech_address1", "Tech Street1:\\s*(.+)"),
  ("tech_address2", "Tech Street2:\\s*(.+)"),
  ("tech_city", "Tech City:\\s*(.+)"),
  ("tech_state_province", "Tech State/Province:\\s*(.+)"),
  ("tech_postal_code", "Tech Postal Code:\\s*(.+)"),
  ("tech_country", "Tech Country:\\s*(.+)"),
  ("tech_country_code", "Tech Country Code:\\s*(.+)"),
  ("tech_phone_number", "Tech Phone Number:\\s*(.+)"),
  ("tech_email", "Tech Email:\\s*(.+)"),
  ("name_servers", "Name Server:\\s*(.+)")]

/-- Field patterns of `WhoisAu` in `parser.py`. -/
def au_regex : List (List Char × List Char) :=
  rx [
  ("domain_name", "Domain Name:\\s*(.+)"),
  ("registrar", "Registrar Name:\\s*(.+)"),
  ("registrar_id", "Registrar ID:\\s*(.+)"),
  ("registrant_name", "Registrant Name:\\s*(.+)"),
  ("registrant_id", "Registrant ID:\\s*(.+)"),
  ("updated_date", "Last Modified:\\s*(.+)"),
  ("name_servers", "Name Server:\\s*(.+)"),
  ("status", "Status:\\s*(.+)")]

/-- Field patterns of `WhoisBiz` in `parser.py`. -/
def biz_regex : List (List Char × List Char) :=
  rx [
  ("domain_name", "Domain Name:\\s*(.+)"),
  ("creation_date", "Domain Registration Date:\\s*(.+)"),
  ("expiration_date", "Domain Expiration Date:\\s*(.+)"),
  ("updated_date", "Domain Last Updated Date:\\s*(.+)"),
  ("domain_id", "Domain ID:\\s*(.+)"),
  ("registrar", "Sponsoring Registrar:\\s*(.+)"),
  ("status", "Domain Status:\\s*(.+)"),
  ("registrant_id", "Registrant ID:\\s*(.+)"),
  ("registrant_name", "Registrant Name:\\s*(.+)"),
  ("registrant_address1", "Registrant Address1:\\s*(.+)"),
  ("registrant_city", "Registrant City:\\s*(.+)"),
  ("registrant_state_province", "Registrant State/Province:\\s*(.+)"),
  ("registrant_postal_code", "Registrant Postal Code:\\s*(.+)"),
  ("registrant_country", "Registrant Country:\\s*(.+)"),
  ("registrant_country_code", "Registrant Country Code:\\s*(.+)"),
  ("registrant_phone_number", "Registrant Phone:\\s*(.+)"),
  ("registrant_email", "Registrant Email:\\s*(.+)"),
  ("admin_id", "Administrative Contact ID:\\s*(.+)"),
  ("admin_name", "Administrative Contact Name:\\s*(.+)"),
  ("admin_address1", "Administrative Contact Address1:\\s*(.+)"),
  ("admin_city", "Administrative Contact City:\\s*(.+)"),
  ("admin_state_province", "Administrative Contact State/Province:\\s*(.+)"),
  ("admin_postal_code", "Administrative Contact Postal Code:\\s*(.+)"),
  ("admin_country", "Administrative Contact Country:\\s*(.+)"),
  ("admin_country_code", "Administrative Contact Country Code:\\s*(.+)"),
  ("admin_phone_number", "Administrative Contact Phone:\\s*(.+)"),
  ("admin_email", "Administrative Contact Email:\\s*(.+)"),
  ("billing_id", "Billing Contact ID:\\s*(.+)"),
  ("billing_name", "Billing Contact Name:\\s*(.+)"),
  ("billing_address1", "Billing Contact Address1:\\s*(.+)"),
  ("billing_city", "Billing Contact City:\\s*(.+)"),
  ("billing_state_province", "Billing Contact State/Province:\\s*(.+)"),
  ("billing_postal_code", "Billing Contact Postal Code:\\s*(.+)"),
  ("billing_country", "Billing Contact Country:\\s*(.+)"),
  ("billing_country_code", "Billing Contact Country Code:\\s*(.+)"),
  ("billing_phone_number", "Billing Contact Phone:\\s*(.+)"),
  ("billing_email", "Billing Contact Email:\\s*(.+)"),
  ("tech_id", "Technical Contact ID:\\s*(.+)"),
  ("tech_name", "Technical Contact Name:\\s*(.+)"),
  ("tech_address1", "Technical Contact Address1:\\s*(.+)"),
  ("tech_city", "Technical Contact City:\\s*(.+)"),
  ("tech_state_province", "Technical Contact State/Province:\\s*(.+)"),
  ("tech_postal_code", "Technical Contact Postal Code:\\s*(.+)"),
  ("tech_country", "Technical Contact Country:\\s*(.+)"),
  ("tech_country_code", "Technical Contact Country Code:\\s*(.+)"),
  ("tech_phone_number", "Technical Contact Phone:\\s*(.+)"),
  ("tech_email", "Technical Contact Email:\\s*(.+)"),
  ("name_servers", "Name Server:\\s*(.+)")]

/-- Field patterns of `WhoisCa` in `parser.py`. -/
def ca_regex : List (List Char × List Char) :=
  rx [
  ("domain_name", "Domain name:\\s*(.+)"),
  ("creation_date", "Creation date:\\s*(.+)"),
  ("updated_date", "Updated date:\\s*(.+)"),
  ("expiration_date", "Expiry Date:\\s*(.+)"),
  ("name_servers", "Name servers:\r?\n\\s*(.+)"),
  ("status", "Domain status:\\s*(.+)"),
  ("emails", "[\\w.-]+@[\\w.-]+\\.[\\w]\x7b2,4\x7d")]

/-- Field patterns of `WhoisCn` in `parser.py`. -/
def cn_regex : List (List Char × List Char) :=
  rx [
  ("domain_name", "Domain Name:\\s*(.+)"),
  ("registrar", "Sponsoring Registrar:\\s*(.+)"),
  ("registrant_organization", "Registrant Organization:\\s*(.+)"),
  ("registrant_name", "Registrant Name:\\s*(.+)"),
  ("creation_date", "Registration Date:\\s*(.+)"),
  ("expiration_date", "Expiration Date:\\s*(.+)"),
  ("name_servers", "Name Server:\\s*(.+)"),
  ("status", "Domain Status:\\s*(.+)"),
  ("emails", "[\\w.-]+@[\\w.-]+\\.[\\w]\x7b2,4\x7d")]

/-- Field patterns of `WhoisCz` in `parser.py`. -/
def cz_regex : List (List Char × List Char) :=
  rx [
  ("domain_name", "domain:\\s*(.+)"),
  ("creation_date", "registered:\\s*(.+)"),
  ("updated_date", "changed:\\s*(.+)"),
  ("expiration_date", "expire:\\s*(.+)"),
  ("name_servers", "nserver:\\s*(.+)")]

/-- Field patterns of `WhoisDe` in `parser.py`. -/
def de_regex : List (List Char × List Char) :=
  rx [
  ("domain_name", "Domain:\\s*(.+)"),
  ("creation_date", "created:\\s*(.+)"),
  ("updated_date", "Changed:\\s*(.+)"),
  ("name_servers", "Nserver:\\s*(.+)"),
  ("status", "Status:\\s*(.+)"),
  ("emails", "[\\w.-]+@[\\w.-]+\\.[\\w]\x7b2,4\x7d")]

/-- Field patterns of `WhoisDk` in `parser.py`. -/
def dk_regex : List (List Char × List Char) :=
  rx [
  ("domain_name", "Domain:\\s*(.+)"),
  ("creation_date", "Registered:\\s*(.+)"),
  ("expiration_date", "Expires:\\s*(.+)"),
  ("name_servers", "Hostname:\\s*(.+)"),
  ("status", "Status:\\s*(.+)")]

/-- Field patterns of `WhoisFi` in `parser.py`. -/
def fi_regex : List (List Char × List Char) :=
  rx [
  ("domain_name", "domain:\\s*(.+)"),
  ("creation_date", "created:\\s*(.+)"),
  ("expiration_date", "expires:\\s*(.+)"),
  ("name_servers", "nserver:\\s*(.+) "),
  ("status", "status:\\s*(.+)")]

/-- Field patterns of `WhoisFm` in `parser.py`. -/
def fm_regex : List (List Char × List Char) :=
  rx [
  ("domain_name", "Query:\\s*(.+)"),
  ("registrar", "Registrar Name:\\s*(.+)"),
  ("creation_date", "Created:\\s*(.+)"),
  ("updated_date", "Modified::\\s*(.+)"),
  ("expiration_date", "Expires:\\s*(.+)"),
  ("name_servers", "Name Servers:\r?\n\\s*(.+) "),
  ("status", "Status:\\s*(.+)"),
  ("emails", "[\\w.-]+@[\\w.-]+\\.[\\w]\x7b2,4\x7d")]

/-- Field patterns of `WhoisFr` in `parser.py`. -/
def fr_regex : List (List Char × List Char) :=
  rx [
  ("domain_name", "domain:\\s*(.+)"),
  ("registrar_id", "source:\\s*(.+)"),
  ("registrar", "registrar:\\s*(.+)"),
  ("admin_id", "admin-c:\\s*(.+)"),
  ("technical_id", "tech-c:\\s*(.+)"),
  ("creation_date", "created:\\s*(.+)"),
  ("updated_date", "last-update:\\s*(.+)"),
  ("name_servers", "nserver:\\s*(.+)"),
  ("status", "status:\\s*(.+)"),
  ("emails", "[\\w.-]+@[\\w.-]+\\.[\\w]\x7b2,4\x7d")]

/-- Field patterns of `WhoisJp` in `parser.py`. -/
def jp_regex : List (List Char × List Char) :=
  rx [
  ("domain_name", "\\[Domain Name\\]\\s+(.+)"),
  ("registrar", "\\[Registrant\\]\\s+(.+)"),
  ("creation_date", "\\[(?:Created on|Registered Date)\\]\\s+(.+)"),
  ("updated_date", "\\[Last Updated?\\]\\s+(.+)"),
  ("expiration_date", "\\[Expires on\\]\\s+(.+)"),
  ("name_servers", "\\[Name Server\\]\\s+(.+)"),
  ("status", "\\[(?:Status|State)\\]\\s+(.+)"),
  ("emails", "[\\w.-]+@[\\w.-]+\\.[\\w]\x7b2,4\x7d")]

/-- Field patterns of `WhoisKr` in `parser.py`. -/
def kr_regex : List (List Char × List Char) :=
  rx [
  ("domain_name", "Domain Name\\s*:\\s*(.+)"),
  ("creation_date", "Registered Date\\s*:\\s*(.+)"),
  ("updated_date", "Last updated Date\\s*:\\s*(.+)"),
  ("expiration_date", "Expiration Date\\s*:\\s*(.+)"),
  ("registrant", "Authorized Agency\\s*:\\s*(.+)"),
  ("name_servers", "Name Server\r?\n\\s*Host Name\\s*:\\s*(.+)"),
  ("status", "Publishes\\s*:\\s*(.+)"),
  ("admin_name", "Administrative Contact\\(AC\\):(.+)"),
  ("emails", "[\\w.-]+@[\\w.-]+\\.[\\w]\x7b2,4\x7d")]

/-- Field patterns of `WhoisNo` in `parser.py`. -/
def no_regex : List (List Char × List Char) :=
  rx [
  ("domain_name", "Domain Name\\.+:\\s*(.+)"),
  ("creation_date", "Created:\\s*(.+)"),
  ("updated_date", "Last updated:\\s*(.+)"),
  ("emails", "[\\w.-]+@[\\w.-]+\\.[\\w]\x7b2,4\x7d")]

/-- Field patterns of `WhoisNu` in `parser.py`. -/
def nu_regex : List (List Char × List Char) :=
  rx [
  ("domain_name", "Domain Name.*:\\s*(.+)"),
  ("creation_date", "Record created on (.+)\\."),
  ("updated_date", "Record last updated on (.+)\\."),
  ("expiration_date", "Record expires on (.+)\\."),
  ("status", "Record status:\\s*(.+)"),
  ("name_servers", "Domain servers in listed order:\r?\n\\s*(.+)"),
  ("emails", "[\\w.-]+@[\\w.-]+\\.[\\w]\x7b2,4\x7d")]

/-- Field patterns of `WhoisPl` in `parser.py`. -/
def pl_regex : List (List Char × List Char) :=
  rx [
  ("domain_name", "DOMAIN NAME:\\s*(.+)"),
  ("creation_date", "created:\\s*(.+)"),
  ("updated_date", "last modified:\\s*(.+)"),
  ("name_servers", "nameservers:\\s*(.+)"),
  ("emails", "[\\w.-]+@[\\w.-]+\\.[\\w]\x7b2,4\x7d")]

/-- Field patterns of `WhoisRu` in `parser.py`. -/
def ru_regex : List (List Char × List Char) :=
  rx [
  ("domain_name", "domain:\\s*(.+)"),
  ("registrar", "registrar:\\s*(.+)"),
  ("creation_date", "created:\\s*(.+)"),
  ("expiration_date", "paid-till:\\s*(.+)"),
  ("name_servers", "nserver:\\s*(.+)"),
  ("status", "state:\\s*(.+)"),
  ("emails", "[\\w.-]+@[\\w.-]+\\.[\\w]\x7b2,4\x7d")]

/-- Field patterns of `WhoisSk` in `parser.py`. -/
def sk_regex : List (List Char × List Char) :=
  rx [
  ("domain_name", "Domain-name\\s*(.+)"),
  ("expiration_date", "Valid-date\\s*(.+)"),
  ("updated_date", "Last-update\\s*(.+)"),
  ("name_servers", "dns_name\\s*(.+)"),
  ("status", "Domain-status\\s*(.+)"),
  ("emails", "[\\w.-]+@[\\w.-]+\\.[\\w]\x7b2,4\x7d")]

/-- Field patterns of `WhoisTk` in `parser.py`. -/
def tk_regex : List (List Char × List Char) :=
  rx [
  ("domain_name", "Domain name:\r?\n\\s*(.+)"),
  ("registrant_name", "Organisation:\r?\n\\s*(.+)"),
  ("registrar", "Record maintained by:\\s*(.+)"),
  ("creation_date", "Domain registered:\\s*(.+)"),
  ("expiration_date", "Record will expire on (.+)"),
  ("name_servers", "Domain Nameservers:\r?\n\\s*(.+)"),
  ("status", "(Your selected domain name [\r\n\\w\\s\\d]+)"),
  ("emails", "[\\w.-]+@[\\w.-]+\\.[\\w]\x7b2,4\x7d")]

/-- Field patterns of `WhoisTw` in `parser.py`. -/
def tw_regex : List (List Char × List Char) :=
  rx [
  ("domain_name", "Domain Name:\\s*(.+)"),
  ("registrar", "Registration Service Provider:\\s*(.+)"),
  ("creation_date", "\\s*Record created on (.+) \\("),
  ("expiration_date", "\\s*Record expires on (.+) \\("),
  ("name_servers", "\\s+([\\w\\d.-_]+)\\s+[\\d.]+"),
  ("emails", "[\\w.-]+@[\\w.-]+\\.[\\w]\x7b2,4\x7d")]

/-- Field patterns of `WhoisName` in `parser.py`. -/
def name_regex : List (List Char × List Char) :=
  rx [
  ("domain_name_id", "Domain Name ID:\\s*(.+)"),
  ("domain_name", "Domain Name:\\s*(.+)"),
  ("registrar_id", "Sponsoring Registrar ID:\\s*(.+)"),
  ("registrar", "Sponsoring Registrar:\\s*(.+)"),
  ("registrant_id", "Registrant ID:\\s*(.+)"),
  ("admin_id", "Admin ID:\\s*(.+)"),
  ("technical_id", "Tech ID:\\s*(.+)"),
  ("billing_id", "Billing ID:\\s*(.+)"),
  ("creation_date", "Created On:\\s*(.+)"),
  ("expiration_date", "Expires On:\\s*(.+)"),
  ("updated_date", "Updated On:\\s*(.+)"),
  ("name_server_ids", "Name Server ID:\\s*(.+)"),
  ("name_servers", "Name Server:\\s*(.+)"),
  ("status", "Domain Status:\\s*(.+)")]

/-- Field patterns of `WhoisUa` in `parser.py`. -/
def ua_regex : List (List Char × List Char) :=
  rx [
  ("domain_name", "domain:\\s*(.+)"),
  ("registrar_id", "source:\\s*(.+)"),
  ("admin_id", "admin-c:\\s*(.+)"),
  ("technical_id", "tech-c:\\s*(.+)"),
  ("creation_date", "created:\\s*.+ (.+)"),
  ("expiration_date", "status:\\s*OK-UNTIL\\ (.+)"),
  ("updated_date", "changed:\\s*.+ (.+)"),
  ("name_servers", "nserver:\\s*(.+)"),
  ("status", "status:\\s*(.+)"),
  ("emails", "[\\w.-]+@[\\w.-]+\\.[\\w]\x7b2,4\x7d")]

/-- Field patterns of `WhoisUs` in `parser.py`. -/
def us_regex : List (List Char × List Char) :=
  rx [
  ("domain_name", "Domain Name:\\s*(.+)"),
  ("domain__id", "Domain ID:\\s*(.+)"),
  ("registrar", "Sponsoring Registrar:\\s*(.+)"),
  ("registrar_id", "Sponsoring Registrar IANA ID:\\s*(.+)"),
  ("registrar_url", "Registrar URL \\(registration services\\):\\s*(.+)"),
  ("status", "Domain Status:\\s*(.+)"),
  ("registrant_id", "Registrant ID:\\s*(.+)"),
  ("registrant_name", "Registrant Name:\\s*(.+)"),
  ("registrant_address1", "Registrant Address1:\\s*(.+)"),
  ("registrant_address2", "Registrant Address2:\\s*(.+)"),
  ("registrant_city", "Registrant City:\\s*(.+)"),
  ("registrant_state_province", "Registrant State/Province:\\s*(.+)"),
  ("registrant_postal_code", "Registrant Postal Code:\\s*(.+)"),
  ("registrant_country", "Registrant Country:\\s*(.+)"),
  ("registrant_country_code", "Registrant Country Code:\\s*(.+)"),
  ("registrant_phone_number", "Registrant Phone Number:\\s*(.+)"),
  ("registrant_email", "Registrant Email:\\s*(.+)"),
  ("registrant_application_purpose", "Registrant Application Purpose:\\s*(.+)"),
  ("registrant_nexus_category", "Registrant Nexus Category:\\s*(.+)"),
  ("admin_id", "Administrative Contact ID:\\s*(.+)"),
  ("admin_name", "Administrative Contact Name:\\s*(.+)"),
  ("admin_address1", "Administrative Contact Address1:\\s*(.+)"),
  ("admin_address2", "Administrative Contact Address2:\\s*(.+)"),
  ("admin_city", "Administrative Contact City:\\s*(.+)"),
  ("admin_state_province", "Administrative Contact State/Province:\\s*(.+)"),
  ("admin_postal_code", "Administrative Contact Postal Code:\\s*(.+)"),
  ("admin_country", "Administrative Contact Country:\\s*(.+)"),
  ("admin_country_code", "Administrative Contact Country Code:\\s*(.+)"),
  ("admin_phone_number", "Administrative Contact Phone Number:\\s*(.+)"),
  ("admin_email", "Administrative Contact Email:\\s*(.+)"),
  ("admin_application_purpose", "Administrative Application Purpose:\\s*(.+)"),
  ("admin_nexus_category", "Administrative Nexus Category:\\s*(.+)"),
  ("billing_id", "Billing Contact ID:\\s*(.+)"),
  ("billing_name", "Billing Contact Name:\\s*(.+)"),
  ("billing_address1", "Billing Contact Address1:\\s*(.+)"),
  ("billing_address2", "Billing Contact Address2:\\s*(.+)"),
  ("billing_city", "Billing Contact City:\\s*(.+)"),
  ("billing_state_province", "Billing Contact State/Province:\\s*(.+)"),
  ("billing_postal_code", "Billing Contact Postal Code:\\s*(.+)"),
  ("billing_country", "Billing Contact Country:\\s*(.+)"),
  ("billing_country_code", "Billing Contact Country Code:\\s*(.+)"),
  ("billing_phone_number", "Billing Contact Phone Number:\\s*(.+)"),
  ("billing_email", "Billing Contact Email:\\s*(.+)"),
  ("billing_application_purpose", "Billing Application Purpose:\\s*(.+)"),
  ("billing_nexus_category", "Billing Nexus Category:\\s*(.+)"),
  ("tech_id", "Technical Contact ID:\\s*(.+)"),
  ("tech_name", "Technical Contact Name:\\s*(.+)"),
  ("tech_address1", "Technical Contact Address1:\\s*(.+)"),
  ("tech_address2", "Technical Contact Address2:\\s*(.+)"),
  ("tech_city", "Technical Contact City:\\s*(.+)"),
  ("tech_state_province", "Technical Contact State/Province:\\s*(.+)"),
  ("tech_postal_code", "Technical Contact Postal Code:\\s*(.+)"),
  ("tech_country", "Technical Contact Country:\\s*(.+)"),
  ("tech_country_code", "Technical Contact Country Code:\\s*(.+)"),
  ("tech_phone_number", "Technical Contact Phone Number:\\s*(.+)"),
  ("tech_email", "Technical Contact Email:\\s*(.+)"),
  ("tech_application_purpose", "Technical Application Purpose:\\s*(.+)"),
  ("tech_nexus_category", "Technical Nexus Category:\\s*(.+)"),
  ("name_servers", "Name Server:\\s*(.+)"),
  ("created_by_registrar", "Created by Registrar:\\s*(.+)"),
  ("last_updated_by_registrar", "Last Updated by Registrar:\\s*(.+)"),
  ("creation_date", "Domain Registration Date:\\s*(.+)"),
  ("expiration_date", "Domain Expiration Date:\\s*(.+)"),
  ("updated_date", "Domain Last Updated Date:\\s*(.+)")]

/-- Field patterns of `WhoisMe` in `parser.py`. -/
def me_regex : List (List Char × List Char) :=
  rx [
  ("domain_id", "Domain ID:(.+)"),
  ("domain_name", "Domain Name:(.+)"),
  ("creation_date", "Domain Create Date:(.+)"),
  ("updated_date", "Domain Last Updated Date:(.+)"),
  ("expiration_date", "Domain Expiration Date:(.+)"),
  ("transfer_date", "Last Transferred Date:(.+)"),
  ("trademark_name", "Trademark Name:(.+)"),
  ("trademark_country", "Trademark Country:(.+)"),
  ("trademark_number", "Trademark Number:(.+)"),
  ("trademark_application_date", "Date Trademark Applied For:(.+)"),
  ("trademark_registration_date", "Date Trademark Registered:(.+)"),
  ("registrar", "Sponsoring Registrar:(.+)"),
  ("created_by", "Created by:(.+)"),
  ("updated_by", "Last Updated by Registrar:(.+)"),
  ("status", "Domain Status:(.+)"),
  ("registrant_id", "Registrant ID:(.+)"),
  ("registrant_name", "Registrant Name:(.+)"),
  ("registrant_org", "Registrant Organization:(.+)"),
  ("registrant_address", "Registrant Address:(.+)"),
  ("registrant_address2", "Registrant Address2:(.+)"),
  ("registrant_address3", "Registrant Address3:(.+)"),
  ("registrant_city", "Registrant City:(.+)"),
  ("registrant_state_province", "Registrant State/Province:(.+)"),
  ("registrant_country", "Registrant Country/Economy:(.+)"),
  ("registrant_postal_code", "Registrant Postal Code:(.+)"),
  ("registrant_phone", "Registrant Phone:(.+)"),
  ("registrant_phone_ext", "Registrant Phone Ext\\.:(.+)"),
  ("registrant_fax", "Registrant FAX:(.+)"),
  ("registrant_fax_ext", "Registrant FAX Ext\\.:(.+)"),
  ("registrant_email", "Registrant E-mail:(.+)"),
  ("admin_id", "Admin ID:(.+)"),
  ("admin_name", "Admin Name:(.+)"),
  ("admin_org", "Admin Organization:(.+)"),
  ("admin_address", "Admin Address:(.+)"),
  ("admin_address2", "Admin Address2:(.+)"),
  ("admin_address3", "Admin Address3:(.+)"),
  ("admin_city", "Admin City:(.+)"),
  ("admin_state_province", "Admin State/Province:(.+)"),
  ("admin_country", "Admin Country/Economy:(.+)"),
  ("admin_postal_code", "Admin Postal Code:(.+)"),
  ("admin_phone", "Admin Phone:(.+)"),
  ("admin_phone_ext", "Admin Phone Ext\\.:(.+)"),
  ("admin_fax", "Admin FAX:(.+)"),
  ("admin_fax_ext", "Admin FAX Ext\\.:(.+)"),
  ("admin_email", "Admin E-mail:(.+)"),
  ("tech_id", "Tech ID:(.+)"),
  ("tech_name", "Tech Name:(.+)"),
  ("tech_org", "Tech Organization:(.+)"),
  ("tech_address", "Tech Address:(.+)"),
  ("tech_address2", "Tech Address2:(.+)"),
  ("tech_address3", "Tech Address3:(.+)"),
  ("tech_city", "Tech City:(.+)"),
  ("tech_state_province", "Tech State/Province:(.+)"),
  ("tech_country", "Tech Country/Economy:(.+)"),
  ("tech_postal_code", "Tech Postal Code:(.+)"),
  ("tech_phone", "Tech Phone:(.+)"),
  ("tech_phone_ext", "Tech Phone Ext\\.:(.+)"),
  ("tech_fax", "Tech FAX:(.+)"),
  ("tech_fax_ext", "Tech FAX Ext\\.:(.+)"),
  ("tech_email", "Tech E-mail:(.+)"),
  ("name_servers", "Nameservers:(.+)")]

/-- Field patterns of `WhoisUk` in `parser.py`. -/
def uk_regex : List (List Char × List Char) :=
  rx [
  ("domain_name", "Domain name:\r?\n\\s*(.+)"),
  ("registrar", "Registrar:\r?\n\\s*(.+)"),
  ("registrar_url", "URL:\\s*(.+)"),
  ("status", "Registration status:\r?\n\\s*(.+)"),
  ("registrant_name", "Registrant:\r?\n\\s*(.+)"),
  ("creation_date", "Registered on:\\s*(.+)"),
  ("expiration_date", "Renewal date:\\s*(.+)"),
  ("updated_date", "Last updated:\\s*(.+)"),
  ("name_servers", "Name servers:\r?\n\\s*(.+)")]

/-- Field patterns of `WhoisIl` in `parser.py`. -/
def il_regex : List (List Char × List Char) :=
  rx [
  ("creation_date", "changed:.*\\.il (.+) \\(Assigned\\)"),
  ("domain_name", "domain:\\s*(.+)"),
  ("registrar", "registrar name:\\s*(.+)"),
  ("expiration_date", "validity:\\s*(.+)"),
  ("name_servers", "nserver:\\s*(.+)"),
  ("status", "status:\\s*(.+)"),
  ("emails", "[\\w.-]+ AT [\\w.-]+\\.[\\w]\x7b2,4\x7d")]


/-- The two error kinds surfaced by the parser (`PywhoisError` in the
source; the payload distinguishes the not-found and unknown-attribute
cases). -/
inductive PywhoisError where
  | domainNotFound (text : List Char)
  | unknownField (name : List Char)
deriving DecidableEq, Repr

/-- A `WhoisEntry` instance: domain, raw text, its pattern table
(`_regex`), and the memoization cache that `__getattr__`/`setattr`
maintain on the instance. -/
structure Record where
  domain : List Char
  text : List Char
  regex : List (List Char × List Char)
  cache : List (List Char × List (List Char))
deriving DecidableEq, Repr

/-- `WhoisEntry.__getattr__`: a cached attribute is returned as is;
otherwise the pattern for `attr` is looked up in `_regex`, a missing or
empty (falsy) pattern raises `KeyError`, and a present pattern is run
through `re.findall` with the result stored in the cache. -/
def Record.get (r : Record) (attr : List Char) : Except PywhoisError (List (List Char) × Record) :=
  match alookup r.cache attr with
  | some v => .ok (v, r)
  | none =>
    match alookup r.regex attr with
    | some p =>
      if p.isEmpty then .error (.unknownField attr)
      else
        let v := findall p r.text
        .ok (v, { r with cache := (attr, v) :: r.cache })
    | none => .error (.unknownField attr)

/-- The extracted value alone (discarding the updated cache state). -/
def Record.getVal (r : Record) (attr : List Char) : Except PywhoisError (List (List Char)) :=
  (r.get attr).map Prod.fst

/-- One constructor per `WhoisEntry` subclass in the source
(`default` is the `WhoisEntry` base-class fallback). -/
inductive EntryKind where
  | com | net | org | au | biz | ca | cn | co | cz | de | dk | fi | fm | fr
  | il | info | jp | kr | me | name | no | nu | pl | tk | tw | ru | sk | su
  | ua | uk | us | default
deriving DecidableEq, Repr

/-- The per-class not-found check performed by each `__init__` before
the record is built.  `WhoisCa`, `WhoisFm` and the base `WhoisEntry`
perform no check.  `WhoisInfo`, `WhoisCo` and `WhoisSu` inherit the
check of `WhoisOrg`, `WhoisBiz` and `WhoisRu` respectively. -/
def notFoundRule : EntryKind → List Char → Bool
  | .com, t => isSub (str "No match for \"") t
  | .net, t => isSub (str "No match for \"") t
  | .org, t => pyStrip t == str "NOT FOUND"
  | .au, t => pyStrip t == str "No Data Found"
  | .biz, t => isSub (str "Not found:") t
  | .ca, _ => false
  | .cn, t => isSub (str "no matching record") t
  | .co, t => isSub (str "Not found:") t
  | .cz, t => isSub (str "No entries found") t
  | .de, t => isSub (str "Status: free") t || isSub (str "Error") t
  | .dk, t => isSub (str "No entries found") t
  | .fi, t => isSub (str "Domain not found") t
  | .fm, _ => false
  | .fr, t => isSub (str "No entries found") t
  | .il, t => pyStrip t == str "No entries found"
  | .info, t => pyStrip t == str "NOT FOUND"
  | .jp, t => pyStrip t == str "No match"
  | .kr, t => pyStrip t == str "No match"
  | .me, t => isSub (str "NOT FOUND") t
  | .name, t => isSub (str "No match.") t
  | .no, t => pyStrip t == str "No match"
  | .nu, t => isSub (str "NO MATCH") t
  | .pl, t => pyStrip t == str "No information available"
  | .tk, t => pyStrip t == str "Invalid query or domain name not known in Dot TK Domain Registry"
  | .tw, t => pyStrip t == str "No found"
  | .ru, t => pyStrip t == str "No entries found"
  | .sk, t => isSub (str "Not found") t
  | .su, t => pyStrip t == str "No entries found"
  | .ua, t => isSub (str "No entries found for") t
  | .uk, t => isSub (str "Not found:") t
  | .us, t => isSub (str "Not found:") t
  | .default, _ => false

/-- The `_regex` table each class ends up with: `WhoisCom`, `WhoisNet`
and the base class keep the base `_regex`; `WhoisInfo`, `WhoisCo` and
`WhoisSu` inherit the tables of `WhoisOrg`, `WhoisBiz` and `WhoisRu`. -/
def regexOf : EntryKind → List (List Char × List Char)
  | .com => base_regex
  | .net => base_regex
  | .org => org_regex
  | .au => au_regex
  | .biz => biz_regex
  | .ca => ca_regex
  | .cn => cn_regex
  | .co => biz_regex
  | .cz => cz_regex
  | .de => de_regex
  | .dk => dk_regex
  | .fi => fi_regex
  | .fm => fm_regex
  | .fr => fr_regex
  | .il => il_regex
  | .info => org_regex
  | .jp => jp_regex
  | .kr => kr_regex
  | .me => me_regex
  | .name => name_regex
  | .no => no_regex
  | .nu => nu_regex
  | .pl => pl_regex
  | .tk => tk_regex
  | .tw => tw_regex
  | .ru => ru_regex
  | .sk => sk_regex
  | .su => ru_regex
  | .ua => ua_regex
  | .uk => uk_regex
  | .us => us_regex
  | .default => base_regex

/-- The if/elif suffix chain of `WhoisEntry.load`, in source order; each
test compares the trailing `len(suffix)` characters of the domain with
the suffix literal. -/
def suffixTable : List (List Char × EntryKind) :=
  [(str ".com", .com), (str ".net", .net), (str ".org", .org), (str ".au", .au),
   (str ".biz", .biz), (str ".ca", .ca), (str ".cn", .cn), (str ".co", .co),
   (str ".cz", .cz), (str ".de", .de), (str ".dk", .dk), (str ".fi", .fi),
   (str ".fm", .fm), (str ".fr", .fr), (str ".il", .il), (str ".info", .info),
   (str ".jp", .jp), (str ".kr", .kr), (str ".me", .me), (str ".name", .name),
   (str ".no", .no), (str ".nu", .nu), (str ".pl", .pl), (str ".tk", .tk),
   (str ".tw", .tw), (str ".ru", .ru), (str ".sk", .sk), (str ".su", .su),
   (str ".ua", .ua), (str ".uk", .uk), (str ".us", .us)]

/-- Which subclass `WhoisEntry.load` dispatches to: the first suffix
test in source order that matches, else the base class. -/
def selectEntry (domain : List Char) : EntryKind :=
  match suffixTable.find? (fun p => slice p.1.length domain == p.1) with
  | some p => p.2
  | none => .default

/-- The selected class's `__init__`: evaluate its not-found check, then
either raise `PywhoisError(text)` or build the instance (with an empty
attribute cache). -/
def construct (k : EntryKind) (domain text : List Char) : Except PywhoisError Record :=
  if notFoundRule k text then .error (.domainNotFound text)
  else .ok ⟨domain, text, regexOf k, []⟩

/-- `WhoisEntry.load`: the up-front global sentinel check followed by
the suffix dispatch. -/
def load (domain text : List Char) : Except PywhoisError Record :=
  if pyStrip text == str "No whois server is known for this kind of object." then
    .error (.domainNotFound text)
  else construct (selectEntry domain) domain text


/-- A `time.struct_time` restricted to the fields the parser's callers
consume (weekday and yearday are derived, never read here). -/
structure ParsedDate where
  year : Nat
  month : Nat
  day : Nat
  hour : Nat
  minute : Nat
  second : Nat
deriving DecidableEq, Repr

def reDigitCls : Re := .atom .dcls

def reRange (lo hi : Char) : Re := .atom (.cls false [.range lo hi])

def reLit (c : Char) : Re := .atom (.lit c)

/-- CPython `_strptime` regex for `%d`: `3[01]|[12]\d|0[1-9]|[1-9]`. -/
def reDay : Re :=
  .alt (.seq (reLit '3') (reRange '0' '1'))
    (.alt (.seq (reRange '1' '2') reDigitCls)
      (.alt (.seq (reLit '0') (reRange '1' '9')) (reRange '1' '9')))

/-- CPython `_strptime` regex for `%m`: `1[0-2]|0[1-9]|[1-9]`. -/
def reMonthNum : Re :=
  .alt (.seq (reLit '1') (reRange '0' '2'))
    (.alt (.seq (reLit '0') (reRange '1' '9')) (reRange '1' '9'))

/-- CPython `_strptime` regex for `%H`: `2[0-3]|[0-1]\d|\d`. -/
def reHour : Re :=
  .alt (.seq (reLit '2') (reRange '0' '3'))
    (.alt (.seq (reRange '0' '1') reDigitCls) reDigitCls)

/-- CPython `_strptime` regex for `%M`: `[0-5]\d|\d`. -/
def reMinute : Re := .alt (.seq (reRange '0' '5') reDigitCls) reDigitCls

/-- CPython `_strptime` regex for `%S`: `6[0-1]|[0-5]\d|\d`. -/
def reSecond : Re :=
  .alt (.seq (reLit '6') (reRange '0' '1'))
    (.alt (.seq (reRange '0' '5') reDigitCls) reDigitCls)

/-- CPython `_strptime` regex for `%Y`: `\d\d\d\d`. -/
def reYear4 : Re := .seq reDigitCls (.seq reDigitCls (.seq reDigitCls reDigitCls))

/-- Locale month abbreviations (C locale), calendar order. -/
def monthNames : List (List Char) :=
  [str "jan", str "feb", str "mar", str "apr", str "may", str "jun",
   str "jul", str "aug", str "sep", str "oct", str "nov", str "dec"]

/-- Locale weekday abbreviations (C locale). -/
def weekdayNames : List (List Char) :=
  [str "mon", str "tue", str "wed", str "thu", str "fri", str "sat", str "sun"]

/-- Timezone names known to `_strptime` in a UTC/C-locale environment
(`utc`, `gmt`; `time.tzname` adds nothing new there). -/
def tzNames : List (List Char) := [str "utc", str "gmt"]

/-- Case-insensitive literal word (the whole `_strptime` regex carries
`re.IGNORECASE`). -/
def reCIWord (w : List Char) : Re :=
  w.foldr (fun c r => .seq (.atom (.litCI c)) r) .eps

def reAltList : List Re → Re
  | [] => .atom (.cls false [])
  | [r] => r
  | r :: rest => .alt r (reAltList rest)

def reNameList (l : List (List Char)) : Re := reAltList (l.map reCIWord)

/-- The format directives appearing in `known_formats`. -/
def directiveRe : Char → Option Re
  | 'Y' => some reYear4
  | 'm' => some reMonthNum
  | 'd' => some reDay
  | 'H' => some reHour
  | 'M' => some reMinute
  | 'S' => some reSecond
  | 'b' => some (reNameList monthNames)
  | 'a' => some (reNameList weekdayNames)
  | 'Z' => some (reNameList tzNames)
  | _ => none

/-- `_strptime.TimeRE.pattern`: each directive becomes a capturing
group, a whitespace run in the format becomes `\s+`, any other literal
character matches itself (case-insensitively for letters).  Returns the
regex, the group-index-to-directive map, and the next group index. -/
def fmtCompile : Nat → List Char → Nat → Option (Re × List (Nat × Char) × Nat)
  | 0, _, _ => none
  | _ + 1, [], gi => some (.eps, [], gi)
  | f + 1, '%' :: c :: rest, gi =>
    match directiveRe c with
    | some dre =>
      (fmtCompile f rest (gi + 1)).map (fun r => (.seq (.group gi dre) r.1, (gi, c) :: r.2.1, r.2.2))
    | none => none
  | f + 1, c :: rest, gi =>
    if pyIsSpace c then
      (fmtCompile f (rest.dropWhile pyIsSpace) gi).map
        (fun r => (.seq (rePlus (.atom .scls)) r.1, r.2))
    else
      (fmtCompile f rest gi).map
        (fun r => (.seq (.atom (if c.isAlpha then .litCI c else .lit c)) r.1, r.2))

def digitsToNat (s : List Char) : Nat :=
  s.foldl (fun a c => a * 10 + (c.toNat - 48)) 0

/-- Month number from a matched (case-insensitive) abbreviation. -/
def monthFromName (s : List Char) : Nat :=
  match monthNames.findIdx? (fun w => w == s.map Char.toLower) with
  | some i => i + 1
  | none => 0

def isLeap (y : Nat) : Bool := y % 4 == 0 && (y % 100 != 0 || y % 400 == 0)

def daysInMonth (y m : Nat) : Nat :=
  if m == 2 then (if isLeap y then 29 else 28)
  else if m == 4 || m == 6 || m == 9 || m == 11 then 30
  else 31

/-- `time.strptime(data, format)` as used by `cast_date`, returning
`none` where CPython raises `ValueError`: the anchored priority-first
match must consume the whole input ("unconverted data remains"
otherwise), and the `datetime.date` construction inside `_strptime`
rejects an out-of-range year or day. -/
def strptime (data format : List Char) : Option ParsedDate :=
  match fmtCompile (format.length + 2) format 1 with
  | none => none
  | some (re, dirs, _) =>
    match mfirst re data with
    | none => none
    | some (rest, g) =>
      if rest.isEmpty then
        let dirVal := fun (c : Char) => (dirs.find? (fun p => p.2 == c)).bind (fun p => alookup g p.1)
        let year := ((dirVal 'Y').map digitsToNat).getD 1900
        let month :=
          match dirVal 'm' with
          | some v => digitsToNat v
          | none =>
            match dirVal 'b' with
            | some v => monthFromName v
            | none => 1
        let day := ((dirVal 'd').map digitsToNat).getD 1
        let hour := ((dirVal 'H').map digitsToNat).getD 0
        let minute := ((dirVal 'M').map digitsToNat).getD 0
        let second := ((dirVal 'S').map digitsToNat).getD 0
        if 1 ≤ year ∧ year ≤ 9999 ∧ 1 ≤ day ∧ day ≤ daysInMonth year month then
          some ⟨year, month, day, hour, minute, second⟩
        else none
      else none

/-- The ordered format list of `cast_date` in `parser.py`. -/
def known_formats : List (List Char) :=
  [str "%d-%b-%Y", str "%Y-%m-%d", str "%Y.%m.%d %H:%M:%S", str "%Y.%m.%d",
   str "%Y-%b-%d", str "%d.%m.%Y %H:%M:%S", str "%d.%m.%Y",
   str "%d-%b-%Y %H:%M:%S %Z", str "%Y-%m-%d %H:%M", str "%a %b %d %H:%M:%S %Z %Y",
   str "%d %b %Y %H:%M %Z", str "%Y-%m-%dT%H:%M:%S", str "%Y%m%d%H%M%S",
   str "%Y%m%d", str "%m/%d/%Y", str "%d/%m/%Y", str "%Y/%m/%d", str "%Y. %m. %d."]

/-- `cast_date`: strip the input, try each format in list order, return
the first success, `None` when every format fails. -/
def cast_date (date_str : List Char) : Option ParsedDate :=
  known_formats.findSome? (fun format => strptime (pyStrip date_str) format)

end Pywhois

deriving instance DecidableEq for Except

namespace Pywhois

/-- The trailing-slice test of the dispatch chain succeeds exactly on
suffixes. -/
theorem slice_eq_iff_suffix (s l : List Char) : slice s.length l = s ↔ s <:+ l := by
  constructor
  · intro h
    rw [← h]
    exact List.drop_suffix _ _
  · rintro ⟨t, rfl⟩
    show List.drop ((t ++ s).length - s.length) (t ++ s) = s
    rw [List.length_append, Nat.add_sub_cancel]
    exact List.drop_left t s

/-- No suffix in the dispatch table is a suffix of another entry's
suffix, so at most one test of the chain can succeed. -/
theorem table_suffix_unique :
    ∀ p ∈ suffixTable, ∀ q ∈ suffixTable, p.1.isSuffixOf q.1 = true → p = q := by decide

/-- No entry of the dispatch table maps to the base-class fallback. -/
theorem table_no_default : ∀ p ∈ suffixTable, p.2 ≠ EntryKind.default := by decide

/-- A domain ending in a table suffix dispatches to that suffix's
class. -/
theorem selectEntry_of_suffix {d s : List Char} {k : EntryKind}
    (hmem : (s, k) ∈ suffixTable) (hsuf : s <:+ d) : selectEntry d = k := by
  have hs : (slice s.length d == s) = true :=
    beq_iff_eq.mpr ((slice_eq_iff_suffix s d).mpr hsuf)
  unfold selectEntry
  cases hfind : suffixTable.find? (fun p => slice p.1.length d == p.1) with
  | none =>
    exact absurd hs (by simpa using List.find?_eq_none.mp hfind (s, k) hmem)
  | some p0 =>
    have hp0 := List.find?_some hfind
    simp only [beq_iff_eq] at hp0
    have hp0mem : p0 ∈ suffixTable := List.mem_of_find?_eq_some hfind
    have hp0suf : p0.1 <:+ d := (slice_eq_iff_suffix _ _).mp hp0
    have hps : p0 = (s, k) := by
      rcases List.suffix_or_suffix_of_suffix hp0suf hsuf with h | h
      · exact table_suffix_unique p0 hp0mem (s, k) hmem (List.isSuffixOf_iff_suffix.mpr h)
      · exact (table_suffix_unique (s, k) hmem p0 hp0mem (List.isSuffixOf_iff_suffix.mpr h)).symm
    simp [hps]

/-- A domain ending in no table suffix falls through to the base
class. -/
theorem selectEntry_eq_default {d : List Char}
    (h : ∀ p ∈ suffixTable, ¬ p.1 <:+ d) : selectEntry d = .default := by
  unfold selectEntry
  have hnone : suffixTable.find? (fun p => slice p.1.length d == p.1) = none :=
    List.find?_eq_none.mpr (fun p hp hpred =>
      h p hp ((slice_eq_iff_suffix _ _).mp (beq_iff_eq.mp hpred)))
  rw [hnone]

/-- A successful association-list lookup is a membership. -/
theorem alookup_mem {α β : Type} [DecidableEq α] {l : List (α × β)} {k : α} {v : β}
    (h : alookup l k = some v) : (k, v) ∈ l := by
  induction l with
  | nil => exact absurd h (by simp [alookup])
  | cons hd tl ih =>
    obtain ⟨a, b⟩ := hd
    by_cases hk : a = k
    · subst hk
      have : b = v := by simpa [alookup] using h
      subst this
      exact List.mem_cons_self _ _
    · exact List.mem_cons_of_mem _ (ih (by simpa [alookup, hk] using h))

/-- Every pattern in every registry is a nonempty (truthy) string, so
`__getattr__` never takes the falsy-pattern branch on a present key. -/
theorem regex_patterns_nonempty : ∀ k : EntryKind, ∀ p ∈ regexOf k, p.2 ≠ [] := by
  intro k
  cases k <;> decide

/-- Formats that all fail are skipped by the first-success scan. -/
theorem findSome?_skip {α β : Type} (f : α → Option β) (pre rest : List α)
    (h : ∀ x ∈ pre, f x = none) : (pre ++ rest).findSome? f = rest.findSome? f := by
  induction pre with
  | nil => rfl
  | cons a tl ih =>
    rw [List.cons_append, List.findSome?_cons, h a (List.mem_cons_self _ _)]
    exact ih (fun x hx => h x (List.mem_cons_of_mem _ hx))

/-- Padding with surrounding whitespace does not change the stripped
string. -/
theorem pyStrip_pad (s : List Char) : pyStrip (str " " ++ s ++ str " ") = pyStrip s := by
  show pyStrip (' ' :: (s ++ [' '])) = pyStrip s
  unfold pyStrip
  rw [List.dropWhile_cons_of_pos (by rfl), List.dropWhile_append]
  by_cases h : (s.dropWhile pyIsSpace).isEmpty
  · rw [if_pos h]
    have h2 : s.dropWhile pyIsSpace = [] := List.isEmpty_iff.mp h
    rw [h2]
    rfl
  · rw [if_neg h]
    rw [List.reverse_append]
    show ((' ' :: (s.dropWhile pyIsSpace).reverse).dropWhile pyIsSpace).reverse = _
    rw [List.dropWhile_cons_of_pos (by rfl)]

end Pywhois

namespace Pywhois

/-- `__getattr__` on a fresh record, present-field case: the pattern is
run over the raw text with `re.findall` and the result cached. -/
theorem get_fresh_of_lookup {k : EntryKind} {d t f p : List Char}
    (hp : alookup (regexOf k) f = some p) :
    (Record.mk d t (regexOf k) []).get f =
      .ok (findall p t, ⟨d, t, regexOf k, [(f, findall p t)]⟩) := by
  have hep : p ≠ [] := regex_patterns_nonempty k (f, p) (alookup_mem hp)
  have hemp : p.isEmpty = false := by
    cases p with
    | nil => exact absurd rfl hep
    | cons a l => rfl
  simp [Record.get, alookup, hp, hemp]

/-- `__getattr__` on a fresh record, absent-field case: `KeyError`. -/
theorem get_fresh_of_none {R : List (List Char × List Char)} {d t f : List Char}
    (hn : alookup R f = none) :
    (Record.mk d t R []).get f = .error (.unknownField f) := by
  simp [Record.get, alookup, hn]

/-- `"nonexistent_field"` is in no registry's table. -/
theorem nonexistent_lookup :
    ∀ k : EntryKind, alookup (regexOf k) (str "nonexistent_field") = none := by
  intro k
  cases k <;> decide

/-- C1: `load(domain, raw_text)` fails with a `DomainNotFound` error
carrying the raw text verbatim if and only if the trimmed text equals
the global sentinel or the selected registry's not-found rule holds on
the text; when it fails no record is returned; and
`load("example.com", "No match for \"EXAMPLE.COM\"")` fails this way. -/
theorem C1_load_notFound_iff :
    (∀ d t : List Char,
      load d t = .error (.domainNotFound t) ↔
        (pyStrip t = str "No whois server is known for this kind of object." ∨
          notFoundRule (selectEntry d) t = true)) ∧
    (∀ d t r, load d t = .error (.domainNotFound t) → load d t ≠ .ok r) ∧
    load (str "example.com") (str "No match for \"EXAMPLE.COM\"") =
      .error (.domainNotFound (str "No match for \"EXAMPLE.COM\"")) := by
  refine ⟨fun d t => ?_,
    fun d t r he ho => by rw [he] at ho; exact Except.noConfusion ho,
    by decide⟩
  unfold load construct
  by_cases h1 : pyStrip t = str "No whois server is known for this kind of object."
  · rw [if_pos (beq_iff_eq.mpr h1)]
    simp [h1]
  · rw [if_neg (by simpa [beq_iff_eq] using h1)]
    by_cases h2 : notFoundRule (selectEntry d) t = true
    · rw [if_pos h2]
      simp [h1, h2]
    · rw [if_neg h2]
      simp [h1, h2]

/-- Witness for C1: a `.cn` response containing the `.cn` sentinel. -/
theorem C1_witness :
    load (str "example.cn") (str "the server found no matching record here") =
      .error (.domainNotFound (str "the server found no matching record here")) :=
  (C1_load_notFound_iff.1 _ _).mpr (Or.inr (by decide))

/-- C2: on a freshly constructed record over any registry, the first
`get` of a present field computes `re.findall` of the field's pattern
over the raw text and stores it in the cache, and a second or later
`get` returns that identical cached sequence with the state unchanged
(the cache-hit branch, no re-match). -/
theorem C2_get_memoized (k : EntryKind) (d t f p : List Char)
    (hp : alookup (regexOf k) f = some p) :
    ∃ r2, (Record.mk d t (regexOf k) []).get f = .ok (findall p t, r2) ∧
      alookup r2.cache f = some (findall p t) ∧
      r2.get f = .ok (findall p t, r2) := by
  refine ⟨⟨d, t, regexOf k, [(f, findall p t)]⟩, get_fresh_of_lookup hp, ?_, ?_⟩
  · simp [alookup]
  · simp [Record.get, alookup]

/-- Witness for C2: the `.org` registry's `domain_name` field. -/
theorem C2_witness :
    ∃ r2, (Record.mk (str "example.org") (str "Domain Name: EXAMPLE.ORG") (regexOf .org) []).get
        (str "domain_name")
        = .ok (findall (str "Domain Name:\\s*(.+)") (str "Domain Name: EXAMPLE.ORG"), r2) ∧
      alookup r2.cache (str "domain_name")
        = some (findall (str "Domain Name:\\s*(.+)") (str "Domain Name: EXAMPLE.ORG")) ∧
      r2.get (str "domain_name")
        = .ok (findall (str "Domain Name:\\s*(.+)") (str "Domain Name: EXAMPLE.ORG"), r2) :=
  C2_get_memoized .org _ _ _ _ (by decide)

/-- C3: on a fresh record over any registry, `get` fails with an
`UnknownField` error exactly when the field name is absent from the
registry's table (in particular `"nonexistent_field"` for every
registry); a present field always succeeds, yielding the empty sequence
when its pattern matches nothing in the raw text. -/
theorem C3_unknownField_iff (k : EntryKind) (d t f : List Char) :
    ((Record.mk d t (regexOf k) []).get f = .error (.unknownField f) ↔
      alookup (regexOf k) f = none) ∧
    (∀ p, alookup (regexOf k) f = some p →
      (Record.mk d t (regexOf k) []).get f =
        .ok (findall p t, ⟨d, t, regexOf k, [(f, findall p t)]⟩)) ∧
    (∀ p, alookup (regexOf k) f = some p → findall p t = [] →
      (Record.mk d t (regexOf k) []).get f = .ok ([], ⟨d, t, regexOf k, [(f, [])]⟩)) ∧
    (Record.mk d t (regexOf k) []).get (str "nonexistent_field") =
      .error (.unknownField (str "nonexistent_field")) := by
  refine ⟨⟨fun he => ?_, fun hn => get_fresh_of_none hn⟩,
    fun p hp => get_fresh_of_lookup hp,
    fun p hp hf => by rw [get_fresh_of_lookup hp, hf],
    get_fresh_of_none (nonexistent_lookup k)⟩
  cases hl : alookup (regexOf k) f with
  | none => rfl
  | some p => rw [get_fresh_of_lookup hl] at he; exact Except.noConfusion he

/-- Witness for C3: absent field on `.ca`, present-but-unmatched field
on `.de`. -/
theorem C3_witness :
    (Record.mk (str "x.ca") (str "whatever") (regexOf .ca) []).get (str "nonexistent_field") =
      .error (.unknownField (str "nonexistent_field")) ∧
    (Record.mk (str "x.de") (str "hello") (regexOf .de) []).get (str "domain_name") =
      .ok ([], ⟨str "x.de", str "hello", regexOf .de, [(str "domain_name", [])]⟩) :=
  ⟨(C3_unknownField_iff .ca (str "x.ca") (str "whatever") (str "zz")).2.2.2,
   (C3_unknownField_iff .de (str "x.de") (str "hello") (str "domain_name")).2.2.1
     (str "Domain:\\s*(.+)") (by decide) (by decide)⟩

end Pywhois

namespace Pywhois

/-- C4: a domain whose trailing characters match a supported suffix
dispatches to that suffix's dedicated registry and never the default
(longer suffixes such as `.com`/`.info` are not shadowed by `.co`/`.fi`);
a domain matching no suffix gets the default registry; and a successful
`load` returns a record bound to the selected registry's patterns, e.g.
the `.cz` table for `example.cz`. -/
theorem C4_dispatch :
    (∀ d s k, (s, k) ∈ suffixTable → s <:+ d → selectEntry d = k ∧ k ≠ .default) ∧
    (∀ d, (∀ p ∈ suffixTable, ¬ p.1 <:+ d) → selectEntry d = .default) ∧
    (∀ d t, pyStrip t ≠ str "No whois server is known for this kind of object." →
      notFoundRule (selectEntry d) t = false →
      load d t = .ok ⟨d, t, regexOf (selectEntry d), []⟩) ∧
    load (str "example.cz") (str "domain: example.cz") =
      .ok ⟨str "example.cz", str "domain: example.cz", cz_regex, []⟩ ∧
    selectEntry (str "example.com") = .com ∧ selectEntry (str "example.co") = .co ∧
    selectEntry (str "example.info") = .info ∧ selectEntry (str "example.fi") = .fi ∧
    selectEntry (str "example.name") = .name ∧ selectEntry (str "example.me") = .me ∧
    selectEntry (str "example.xyz") = .default := by
  refine ⟨fun d s k hm hs => ⟨selectEntry_of_suffix hm hs, table_no_default _ hm⟩,
    fun d h => selectEntry_eq_default h,
    fun d t h1 h2 => ?_,
    by decide, by decide, by decide, by decide, by decide, by decide, by decide, by decide⟩
  unfold load construct
  rw [if_neg (by simpa [beq_iff_eq] using h1), if_neg (by simp [h2])]

/-- Witness for C4 on a multi-label `.uk` domain. -/
theorem C4_witness :
    selectEntry (str "whois.example.uk") = .uk ∧ EntryKind.uk ≠ .default :=
  C4_dispatch.1 (str "whois.example.uk") (str ".uk") .uk (by decide) (by decide)

/-- C5: the `.org` not-found rule is trimmed, case-sensitive exact
equality with "NOT FOUND" (whitespace-padded text still fails,
lowercase does not); a real `.org` record loads, and `domain_name`
yields exactly the captured group `["EXAMPLE.ORG"]`, not the whole
line. -/
theorem C5_org_example :
    load (str "example.org") (str "NOT FOUND") =
      .error (.domainNotFound (str "NOT FOUND")) ∧
    load (str "example.org") (str " NOT FOUND \n") =
      .error (.domainNotFound (str " NOT FOUND \n")) ∧
    load (str "example.org") (str "not found") =
      .ok ⟨str "example.org", str "not found", org_regex, []⟩ ∧
    load (str "example.org") (str "Domain Name: EXAMPLE.ORG\n...") =
      .ok ⟨str "example.org", str "Domain Name: EXAMPLE.ORG\n...", org_regex, []⟩ ∧
    (Record.mk (str "example.org") (str "Domain Name: EXAMPLE.ORG\n...") org_regex []).getVal
      (str "domain_name") = .ok [str "EXAMPLE.ORG"] := by
  exact ⟨by decide, by decide, by decide, by decide, by decide⟩

/-- C7: field extraction applies the pattern to the full raw text,
collecting every non-overlapping match left to right; with three
`Name Server:` lines under the default registry, `name_servers` yields
the three host names in document order. -/
theorem C7_name_servers :
    (∀ (r : Record) (f p : List Char), alookup r.regex f = some p → p ≠ [] →
      alookup r.cache f = none →
      r.get f = .ok (findall p r.text,
        ⟨r.domain, r.text, r.regex, (f, findall p r.text) :: r.cache⟩)) ∧
    load (str "example.xyz")
        (str "Name Server: ns1.x\nName Server: ns2.x\nName Server: ns3.x") =
      .ok ⟨str "example.xyz",
        str "Name Server: ns1.x\nName Server: ns2.x\nName Server: ns3.x", base_regex, []⟩ ∧
    (Record.mk (str "example.xyz")
        (str "Name Server: ns1.x\nName Server: ns2.x\nName Server: ns3.x")
        base_regex []).getVal (str "name_servers") =
      .ok [str "ns1.x", str "ns2.x", str "ns3.x"] := by
  refine ⟨fun r f p hp hep hc => ?_, by decide, by decide⟩
  have hemp : p.isEmpty = false := by
    cases p with
    | nil => exact absurd rfl hep
    | cons a l => rfl
  simp [Record.get, hc, hp, hemp]

/-- Witness for C7: first access of `emails` on a default-registry
record with a non-empty cache for another field. -/
theorem C7_witness :
    (Record.mk (str "a.xyz") (str "mail me at root@example.net ok")
        base_regex [(str "status", [])]).get (str "emails") =
      .ok (findall (str "[\\w.-]+@[\\w.-]+\\.[\\w]\x7b2,4\x7d") (str "mail me at root@example.net ok"),
        ⟨str "a.xyz", str "mail me at root@example.net ok", base_regex,
          (str "emails", findall (str "[\\w.-]+@[\\w.-]+\\.[\\w]\x7b2,4\x7d")
            (str "mail me at root@example.net ok")) :: [(str "status", [])]⟩) :=
  C7_name_servers.1 _ (str "emails") _ (by decide) (by decide) (by decide)

end Pywhois

namespace Pywhois

/-- `getVal` never reads the stored domain: records differing only in
domain extract identically. -/
theorem getVal_domain_free (d1 d2 t : List Char)
    (R : List (List Char × List Char)) (c : List (List Char × List (List Char)))
    (f : List Char) :
    (Record.mk d1 t R c).getVal f = (Record.mk d2 t R c).getVal f := by
  unfold Record.getVal Record.get
  cases alookup c f with
  | some v => rfl
  | none =>
    cases alookup R f with
    | none => rfl
    | some p =>
      by_cases hb : p.isEmpty = true
      · simp only [if_pos hb]
      · simp only [if_neg hb]
        rfl

/-- A successful `load` always returns the freshly constructed record of
the selected class. -/
theorem load_ok_shape {d t : List Char} {r : Record} (h : load d t = .ok r) :
    r = ⟨d, t, regexOf (selectEntry d), []⟩ := by
  unfold load construct at h
  by_cases h1 : (pyStrip t == str "No whois server is known for this kind of object.") = true
  · rw [if_pos h1] at h
    exact Except.noConfusion h
  · rw [if_neg h1] at h
    by_cases h2 : notFoundRule (selectEntry d) t = true
    · rw [if_pos h2] at h
      exact Except.noConfusion h
    · rw [if_neg h2] at h
      exact (Except.ok.inj h).symm

/-- Two suffixes sharing one class behave identically under `load`. -/
theorem load_pair_equiv {k1 k2 : EntryKind}
    (hrule : ∀ t, notFoundRule k1 t = notFoundRule k2 t) (hreg : regexOf k1 = regexOf k2)
    {d1 d2 : List Char} (h1 : selectEntry d1 = k1) (h2 : selectEntry d2 = k2) (t : List Char) :
    (∀ e, load d1 t = .error e ↔ load d2 t = .error e) ∧
    (∀ r1 r2, load d1 t = .ok r1 → load d2 t = .ok r2 →
      r1.regex = r2.regex ∧ ∀ f, r1.getVal f = r2.getVal f) := by
  constructor
  · intro e
    unfold load construct
    rw [h1, h2, hrule t]
    by_cases hg : (pyStrip t == str "No whois server is known for this kind of object.") = true
    · rw [if_pos hg, if_pos hg]
    · rw [if_neg hg, if_neg hg]
      by_cases hr : notFoundRule k2 t = true
      · rw [if_pos hr, if_pos hr]
      · rw [if_neg hr, if_neg hr]
        constructor <;> (intro h; exact Except.noConfusion h)
  · intro r1 r2 hr1 hr2
    have e1 := load_ok_shape hr1
    have e2 := load_ok_shape hr2
    subst e1
    subst e2
    rw [h1, h2, hreg]
    exact ⟨rfl, fun f => getVal_domain_free ..⟩

/-- C8: the `.ca` and `.fm` registries and the default registry have no
not-found rule, so whenever the trimmed text differs from the global
sentinel, `load` on a domain dispatching to one of them always
succeeds, whatever the text contains. -/
theorem C8_no_rule_always_found :
    (∀ t, notFoundRule .ca t = false ∧ notFoundRule .fm t = false ∧
      notFoundRule .default t = false) ∧
    (∀ d t, (selectEntry d = .ca ∨ selectEntry d = .fm ∨ selectEntry d = .default) →
      pyStrip t ≠ str "No whois server is known for this kind of object." →
      load d t = .ok ⟨d, t, regexOf (selectEntry d), []⟩) := by
  refine ⟨fun t => ⟨rfl, rfl, rfl⟩, fun d t hk h1 => ?_⟩
  unfold load construct
  rw [if_neg (by simpa [beq_iff_eq] using h1)]
  rcases hk with h | h | h <;> rw [h] <;> rfl

/-- Witness for C8: a `.fm` text full of other registries' sentinels
still loads. -/
theorem C8_witness :
    load (str "example.fm") (str "Not found: NO MATCH Error No entries found") =
      .ok ⟨str "example.fm", str "Not found: NO MATCH Error No entries found",
        regexOf (selectEntry (str "example.fm")), []⟩ :=
  C8_no_rule_always_found.2 _ _ (Or.inr (Or.inl (by decide))) (by decide)

/-- C9: suffix pairs sharing one class behave identically: `.info` like
`.org`, `.co` like `.biz`, `.su` like `.ru` — same error condition with
the same payload, same pattern table, identical extraction for every
field. -/
theorem C9_shared_registries :
    (∀ d1 d2 t, str ".info" <:+ d1 → str ".org" <:+ d2 →
      (∀ e, load d1 t = .error e ↔ load d2 t = .error e) ∧
      (∀ r1 r2, load d1 t = .ok r1 → load d2 t = .ok r2 →
        r1.regex = r2.regex ∧ ∀ f, r1.getVal f = r2.getVal f)) ∧
    (∀ d1 d2 t, str ".co" <:+ d1 → str ".biz" <:+ d2 →
      (∀ e, load d1 t = .error e ↔ load d2 t = .error e) ∧
      (∀ r1 r2, load d1 t = .ok r1 → load d2 t = .ok r2 →
        r1.regex = r2.regex ∧ ∀ f, r1.getVal f = r2.getVal f)) ∧
    (∀ d1 d2 t, str ".su" <:+ d1 → str ".ru" <:+ d2 →
      (∀ e, load d1 t = .error e ↔ load d2 t = .error e) ∧
      (∀ r1 r2, load d1 t = .ok r1 → load d2 t = .ok r2 →
        r1.regex = r2.regex ∧ ∀ f, r1.getVal f = r2.getVal f)) := by
  refine ⟨fun d1 d2 t h1 h2 => ?_, fun d1 d2 t h1 h2 => ?_, fun d1 d2 t h1 h2 => ?_⟩
  · exact load_pair_equiv
      (show ∀ t, notFoundRule EntryKind.info t = notFoundRule EntryKind.org t from fun t => rfl)
      (show regexOf EntryKind.info = regexOf EntryKind.org from rfl)
      (selectEntry_of_suffix (show (str ".info", EntryKind.info) ∈ suffixTable by decide) h1)
      (selectEntry_of_suffix (show (str ".org", EntryKind.org) ∈ suffixTable by decide) h2) t
  · exact load_pair_equiv
      (show ∀ t, notFoundRule EntryKind.co t = notFoundRule EntryKind.biz t from fun t => rfl)
      (show regexOf EntryKind.co = regexOf EntryKind.biz from rfl)
      (selectEntry_of_suffix (show (str ".co", EntryKind.co) ∈ suffixTable by decide) h1)
      (selectEntry_of_suffix (show (str ".biz", EntryKind.biz) ∈ suffixTable by decide) h2) t
  · exact load_pair_equiv
      (show ∀ t, notFoundRule EntryKind.su t = notFoundRule EntryKind.ru t from fun t => rfl)
      (show regexOf EntryKind.su = regexOf EntryKind.ru from rfl)
      (selectEntry_of_suffix (show (str ".su", EntryKind.su) ∈ suffixTable by decide) h1)
      (selectEntry_of_suffix (show (str ".ru", EntryKind.ru) ∈ suffixTable by decide) h2) t

/-- Witness for C9 at a concrete `.info`/`.org` pair. -/
theorem C9_witness :
    (∀ e, load (str "a.info") (str "NOT FOUND") = .error e ↔
      load (str "b.org") (str "NOT FOUND") = .error e) ∧
    (∀ r1 r2, load (str "a.info") (str "NOT FOUND") = .ok r1 →
      load (str "b.org") (str "NOT FOUND") = .ok r2 →
      r1.regex = r2.regex ∧ ∀ f, r1.getVal f = r2.getVal f) :=
  C9_shared_registries.1 (str "a.info") (str "b.org") (str "NOT FOUND")
    (by decide) (by decide)

/-- C10: any domain ending in `.de` fails with `DomainNotFound`
whenever the raw text contains "Error" or "Status: free" anywhere —
including an otherwise complete registration record that merely
mentions "Error" inside a field value (shown by the patterns still
extracting its fields). -/
theorem C10_de_contains_error :
    (∀ d t, str ".de" <:+ d →
      (isSub (str "Error") t = true ∨ isSub (str "Status: free") t = true) →
      load d t = .error (.domainNotFound t)) ∧
    load (str "example.de")
        (str "Domain: example.de\nNserver: ns1.example.de\nStatus: connect\nChanged: 2010-01-01\nRemarks: Error tolerant") =
      .error (.domainNotFound
        (str "Domain: example.de\nNserver: ns1.example.de\nStatus: connect\nChanged: 2010-01-01\nRemarks: Error tolerant")) ∧
    findall (str "Domain:\\s*(.+)")
        (str "Domain: example.de\nNserver: ns1.example.de\nStatus: connect\nChanged: 2010-01-01\nRemarks: Error tolerant") =
      [str "example.de"] ∧
    findall (str "Nserver:\\s*(.+)")
        (str "Domain: example.de\nNserver: ns1.example.de\nStatus: connect\nChanged: 2010-01-01\nRemarks: Error tolerant") =
      [str "ns1.example.de"] ∧
    findall (str "Status:\\s*(.+)")
        (str "Domain: example.de\nNserver: ns1.example.de\nStatus: connect\nChanged: 2010-01-01\nRemarks: Error tolerant") =
      [str "connect"] := by
  refine ⟨fun d t hsuf hor => ?_, by decide, by decide, by decide, by decide⟩
  unfold load construct
  by_cases hg : (pyStrip t == str "No whois server is known for this kind of object.") = true
  · rw [if_pos hg]
  · rw [if_neg hg,
      selectEntry_of_suffix (show (str ".de", EntryKind.de) ∈ suffixTable by decide) hsuf]
    have hr : notFoundRule .de t = true := by
      show (isSub (str "Status: free") t || isSub (str "Error") t) = true
      rcases hor with h | h <;> simp [h]
    rw [if_pos hr]

/-- Witness for C10 at a concrete `.de` input. -/
theorem C10_witness :
    load (str "x.de") (str "Error: connection reset") =
      .error (.domainNotFound (str "Error: connection reset")) :=
  C10_de_contains_error.1 (str "x.de") (str "Error: connection reset")
    (by decide) (Or.inl (by decide))

/-- C6: `cast_date` trims surrounding whitespace, tries the format list
in its enumerated order, returns the first format that fully parses
(`%m/%d/%Y` beats `%d/%m/%Y` on ambiguous numeric strings), and yields
`none` for an unrecognized string instead of failing; `"20020702"`
parses to year 2002, month 7, day 2. -/
theorem C6_cast_date :
    cast_date (str "20020702") = some ⟨2002, 7, 2, 0, 0, 0⟩ ∧
    cast_date (str "not-a-date") = none ∧
    (cast_date (str "01/02/2003") = some ⟨2003, 1, 2, 0, 0, 0⟩ ∧
      strptime (str "01/02/2003") (str "%d/%m/%Y") = some ⟨2003, 2, 1, 0, 0, 0⟩) ∧
    (∀ s, cast_date (str " " ++ s ++ str " ") = cast_date s) ∧
    (∀ s pre fmt post d, known_formats = pre ++ fmt :: post →
      (∀ g ∈ pre, strptime (pyStrip s) g = none) →
      strptime (pyStrip s) fmt = some d → cast_date s = some d) ∧
    (∀ s, (∀ g ∈ known_formats, strptime (pyStrip s) g = none) → cast_date s = none) := by
  refine ⟨by decide, by decide, ⟨by decide, by decide⟩, fun s => ?_,
    fun s pre fmt post d hsplit hpre hfmt => ?_, fun s hall => ?_⟩
  · unfold cast_date
    rw [pyStrip_pad]
  · unfold cast_date
    rw [hsplit, findSome?_skip _ _ _ hpre, List.findSome?_cons, hfmt]
  · unfold cast_date
    exact List.findSome?_eq_none_iff.mpr hall

/-- Witness for C6: whitespace padding is immaterial, concretely. -/
theorem C6_witness :
    cast_date (str " " ++ str "20020702" ++ str " ") = cast_date (str "20020702") :=
  C6_cast_date.2.2.2.1 (str "20020702")

end Pywhois
